import Mathlib

/-!
Verification of the PhotoFrame background-removal services.

The development shallowly embeds the input-normalization and backend-dispatch
logic of the repository:

- the base64 data-URL branch shared by
  python-bg-service/app.py, python-bg-service/main.py and
  python-bg-vercel/api/remove-background-url.py
  (split on the first comma, then base64-decode the payload);
- the ordered fallback loop over the HuggingFace endpoints in
  python-bg-vercel/api/remove-background-url.py (do_POST, lines 59-76);
- the multipart parser in python-bg-vercel/api/remove-background.py
  (parse_multipart, lines 99-124);
- the Flask handlers remove_background_url of app.py and main.py and the
  Vercel do_POST handler, at the level of their HTTP responses.

Bytes are modelled as List Nat (each element intended below 256), strings as
List Char.  External effects (requests.get, requests.post, urllib urlopen,
rembg.remove) are passed in as explicit function parameters; a parameter
returning none models the library call raising an exception.  Error names
such as MalformedDataUrl follow the specification taxonomy and label the
corresponding exception paths of the source.
-/

namespace PhotoFrame

/-- Boolean test that the first list is a leading segment of the second.
Models the Python str.startswith used by the handlers (pattern first). -/
def startsWithL {α : Type} [DecidableEq α] : List α → List α → Bool
  | [], _ => true
  | _ :: _, [] => false
  | p :: ps, b :: bs => decide (p = b) && startsWithL ps bs

/-- Boolean test that the first list is a trailing segment of the second.
Models Python bytes.endswith. -/
def endsWithL {α : Type} [DecidableEq α] (t d : List α) : Bool :=
  startsWithL t.reverse d.reverse

/-- Index of the first occurrence of sep as a contiguous sublist, as in
Python bytes.find. -/
def findSubL {α : Type} [DecidableEq α] (sep : List α) : List α → Option Nat
  | [] => if startsWithL sep [] then some 0 else none
  | b :: bs =>
    if startsWithL sep (b :: bs) then some 0
    else (findSubL sep bs).map (· + 1)

/-- Whether sep occurs as a contiguous sublist, as in the Python operator
`marker in data` on bytes. -/
def containsSubL {α : Type} [DecidableEq α] (sep d : List α) : Bool :=
  (findSubL sep d).isSome

/-- Fuel-indexed worker for splitting on a separator; the wrapper always
supplies enough fuel (one unit per element plus one), so the fuel-exhausted
arm is never reached there. -/
def splitOnSepFuel {α : Type} [DecidableEq α] (sep : List α) :
    Nat → List α → List (List α)
  | 0, d => [d]
  | fuel + 1, d =>
    match findSubL sep d with
    | none => [d]
    | some i =>
      if sep = [] then [d]
      else d.take i :: splitOnSepFuel sep fuel (d.drop (i + sep.length))

/-- Split on non-overlapping leftmost occurrences of sep, as in Python
bytes.split(sep).  The sep = [] guard mirrors Python raising on an empty
separator (never reached by the handlers, whose separators are nonempty). -/
def splitOnSepL {α : Type} [DecidableEq α] (sep d : List α) : List (List α) :=
  splitOnSepFuel sep (d.length + 1) d

/-- ASCII codes of the characters of a string literal; used to write the
byte-string constants of the source. -/
def strBytes (s : String) : List Nat :=
  s.toList.map Char.toNat

/-- The base64 alphabet in order, as used by Python base64.b64encode. -/
def b64AlphaChars : List Char :=
  "ABCDEFGHIJKLMNOPQRSTUVWXYZabcdefghijklmnopqrstuvwxyz0123456789+/".toList

/-- Character for a 6-bit value (only values below 64 arise from encoding). -/
def b64Char (n : Nat) : Char :=
  b64AlphaChars.getD n 'A'

/-- Worker scanning the alphabet for a character, tracking the index. -/
def b64IndexAux (c : Char) : List Char → Nat → Option Nat
  | [], _ => none
  | a :: rest, i => if a = c then some i else b64IndexAux c rest (i + 1)

/-- The 6-bit value of a base64 character, none for characters outside the
alphabet. -/
def b64Index (c : Char) : Option Nat :=
  b64IndexAux c b64AlphaChars 0

/-- Standard base64 encoding of a byte list, three bytes to four characters
with = padding, as produced by Python base64.b64encode. -/
def b64encode : List Nat → List Char
  | [] => []
  | [a] => [b64Char (a / 4), b64Char (a % 4 * 16), '=', '=']
  | [a, b] => [b64Char (a / 4), b64Char (a % 4 * 16 + b / 16), b64Char (b % 16 * 4), '=']
  | a :: b :: c :: rest =>
    b64Char (a / 4) :: b64Char (a % 4 * 16 + b / 16) ::
      b64Char (b % 16 * 4 + c / 64) :: b64Char (c % 64) :: b64encode rest

/-- Quad-wise base64 decoding: padding is admitted only in the final quad,
and any other length fails, as in binascii.a2b_base64 on filtered input. -/
def b64decodeQuads : List Char → Option (List Nat)
  | [] => some []
  | [c1, c2, c3, c4] =>
    if c4 = '=' then
      if c3 = '=' then
        match b64Index c1, b64Index c2 with
        | some n1, some n2 => some [n1 * 4 + n2 / 16]
        | _, _ => none
      else
        match b64Index c1, b64Index c2, b64Index c3 with
        | some n1, some n2, some n3 =>
          some [n1 * 4 + n2 / 16, n2 % 16 * 16 + n3 / 4]
        | _, _, _ => none
    else
      match b64Index c1, b64Index c2, b64Index c3, b64Index c4 with
      | some n1, some n2, some n3, some n4 =>
        some [n1 * 4 + n2 / 16, n2 % 16 * 16 + n3 / 4, n3 % 4 * 64 + n4]
      | _, _, _, _ => none
  | c1 :: c2 :: c3 :: c4 :: rest =>
    match b64Index c1, b64Index c2, b64Index c3, b64Index c4 with
    | some n1, some n2, some n3, some n4 =>
      (b64decodeQuads rest).map fun tl =>
        (n1 * 4 + n2 / 16) :: (n2 % 16 * 16 + n3 / 4) :: (n3 % 4 * 64 + n4) :: tl
    | _, _, _, _ => none
  | _ => none

/-- Characters kept by Python base64.b64decode before decoding: alphabet
characters and the padding character; everything else is discarded. -/
def b64Keep (c : Char) : Bool :=
  (b64Index c).isSome || c = '='

/-- Python base64.b64decode on a character list: discard foreign characters,
then decode quad-wise; none models binascii.Error being raised. -/
def b64decode (s : List Char) : Option (List Nat) :=
  b64decodeQuads (s.filter b64Keep)

/-- Error taxonomy of the specification for input decoding; each variant
labels a concrete exception path of the source handlers. -/
inductive DecodeErr where
  | MalformedDataUrl
  | InvalidBase64
  | FetchFailed (status : Nat)
  | NoImagePart
  | MultipartParseFailed
deriving DecidableEq

/-- Split at the first comma, as in the Python statement
`header, encoded = image_data.split(",", 1)` of the handlers; none models the
ValueError raised by the unpacking when no comma is present. -/
def splitFirstComma : List Char → Option (List Char × List Char)
  | [] => none
  | c :: rest =>
    if c = ',' then some ([], rest)
    else (splitFirstComma rest).map fun p => (c :: p.1, p.2)

/-- The base64 data-URL branch common to app.py (lines 129-132), main.py
(lines 89-92) and the Vercel url handler (lines 38-41): split on the first
comma, then base64-decode the payload.  The error names follow the
specification taxonomy for the two exception paths. -/
def normalizeDataUrl (s : List Char) : Except DecodeErr (List Nat) :=
  match splitFirstComma s with
  | none => .error .MalformedDataUrl
  | some (_hdr, enc) =>
    match b64decode enc with
    | none => .error .InvalidBase64
    | some bytes => .ok bytes

/-- One background-removal backend of the Vercel url handler: an endpoint
name and its invocation, modelling
`requests.post(api_url, headers=headers, data=input_data, timeout=30)`;
none models the call raising (timeout, connection error), some gives the
status code and body of the response. -/
structure Backend where
  name : String
  invoke : List Nat → Option (Nat × List Nat)

/-- A backend invocation that does not produce a 200 response: either the
call raises or the status code differs from 200. -/
def backendFails (bk : Backend) (x : List Nat) : Bool :=
  match bk.invoke x with
  | some (st, _) => decide (st ≠ 200)
  | none => true

/-- The fallback loop of do_POST (remove-background-url.py lines 65-76),
instrumented with the ordered list of endpoint names that were invoked: try
each backend in order; a 200 response short-circuits with its body; a raise
or a non-200 status falls through to the next backend. -/
def dispatchTrace : List Backend → List Nat → Option (List Nat) × List String
  | [], _ => (none, [])
  | bk :: rest, input =>
    match bk.invoke input with
    | some (st, content) =>
      if st = 200 then (some content, [bk.name])
      else
        let r := dispatchTrace rest input
        (r.1, bk.name :: r.2)
    | none =>
      let r := dispatchTrace rest input
      (r.1, bk.name :: r.2)

/-- The output_data value computed by the fallback loop. -/
def dispatchLoop (bks : List Backend) (input : List Nat) : Option (List Nat) :=
  (dispatchTrace bks input).1

/-- Result of a whole dispatch, in the vocabulary of the specification.  The
source produces only the first two forms: a body on some 200 response, or
the single aggregate exception `All HuggingFace models failed`; the
ConfigurationError form exists in the specification taxonomy but is never
produced by the code. -/
inductive RemovalResult where
  | Success (png : List Nat)
  | Failure (message : String)
  | ConfigurationError
deriving DecidableEq

/-- Message of the aggregate exception raised when output_data is None
(remove-background-url.py line 76). -/
def allFailedMsg : String := "All HuggingFace models failed"

/-- dispatch of the specification as realised by do_POST lines 59-76: run
the fallback loop and raise the aggregate exception if nothing succeeded. -/
def dispatch (bks : List Backend) (input : List Nat) : RemovalResult :=
  match dispatchLoop bks input with
  | some out => .Success out
  | none => .Failure allFailedMsg

/-- A backend that raises on invocation, named A. -/
def backendA : Backend :=
  ⟨"https://api-inference.huggingface.co/models/A", fun _ => some (503, [1])⟩

/-- A second failing backend, named B2, whose call raises. -/
def backendB2 : Backend :=
  ⟨"https://api-inference.huggingface.co/models/B2", fun _ => none⟩

/-- A backend that succeeds with body 9, 9, named B. -/
def backendB : Backend :=
  ⟨"https://api-inference.huggingface.co/models/B", fun _ => some (200, [9, 9])⟩

/-- Kinds of caught exceptions whose str(e) ends up in an error response;
the text of such a message is the exception rendering, not a literal of the
handlers. -/
inductive ExcKind where
  | unpackNoComma
  | badBase64
  | httpGetRaised
  | raiseForStatus
  | rembgRaised
  | jsonRaised
  | noImageData
deriving DecidableEq

/-- Value of the error field of a JSON response: either a string literal of
the source or the rendering of a caught exception. -/
inductive ErrVal where
  | lit (s : String)
  | exc (k : ExcKind)
deriving DecidableEq

/-- JSON response together with the HTTP status it is sent with.  A none
field models the key being absent from the JSON object. -/
structure Resp where
  status : Nat
  success : Option Bool
  error : Option ErrVal
  image : Option (List Char)
  message : Option String
deriving DecidableEq

/-- Response of one handler invocation, paired with whether the
background-removal backend was invoked during the request. -/
structure HandlerOut where
  resp : Resp
  backendCalled : Bool
deriving DecidableEq

/-- Fixed leading text of the image field of every successful JSON response,
the literal data:image/png;base64 followed by a comma in the f-strings of
app.py line 93, main.py line 62 and remove-background-url.py line 83. -/
def pngDataUrlHead : List Char := "data:image/png;base64,".toList

/-- The literal data:image/ tested by str.startswith in the handlers. -/
def dataImageMarker : List Char := "data:image/".toList

/-- The literal http tested by str.startswith in app.py line 133. -/
def httpMarker : List Char := "http".toList

/-- Tail shared by app.py and main.py once input bytes are in hand: call
rembg.remove; an exception gives the 500 error response, success gives the
200 response with the base64 data URL of the output. -/
def runRembgFlask (rembgRemove : List Nat → Option (List Nat)) (input : List Nat) :
    HandlerOut :=
  match rembgRemove input with
  | none => ⟨⟨500, some false, some (.exc .rembgRaised), none, none⟩, true⟩
  | some out =>
    ⟨⟨200, some true, none, some (pngDataUrlHead ++ b64encode out),
      some "Background removed successfully"⟩, true⟩

/-- Timeout argument of the requests.get call in app.py line 136: the call
passes no timeout, so the fetch is unbounded. -/
def appGetTimeout : Option Nat := none

/-- remove_background_url of app.py (lines 109-164).  sess is the global
bg_session (none when not initialized); body is the parsed request JSON,
none for a missing or unreadable JSON body, some none for a JSON object
without the image_data key, some (some s) for image_data s; httpGet models
requests.get (none for a raised network error, some gives status and body);
rembgRemove models rembg.remove. -/
def appRemoveBackgroundUrl (sess : Option Unit) (body : Option (Option (List Char)))
    (httpGet : List Char → Option (Nat × List Nat))
    (rembgRemove : List Nat → Option (List Nat)) : HandlerOut :=
  match sess with
  | none => ⟨⟨500, some false, some (.lit "rembg session not initialized"), none, none⟩, false⟩
  | some _ =>
    match body with
    | none => ⟨⟨400, some false, some (.lit "No image_data provided"), none, none⟩, false⟩
    | some none => ⟨⟨400, some false, some (.lit "No image_data provided"), none, none⟩, false⟩
    | some (some s) =>
      if startsWithL dataImageMarker s then
        match splitFirstComma s with
        | none => ⟨⟨500, some false, some (.exc .unpackNoComma), none, none⟩, false⟩
        | some (_hdr, enc) =>
          match b64decode enc with
          | none => ⟨⟨500, some false, some (.exc .badBase64), none, none⟩, false⟩
          | some input => runRembgFlask rembgRemove input
      else if startsWithL httpMarker s then
        match httpGet s with
        | none => ⟨⟨500, some false, some (.exc .httpGetRaised), none, none⟩, false⟩
        | some (_st, content) => runRembgFlask rembgRemove content
      else ⟨⟨400, some false, some (.lit "Invalid image_data format"), none, none⟩, false⟩

/-- Timeout argument of the requests.get call in main.py line 96: the call
passes no timeout, so the fetch is unbounded. -/
def mainGetTimeout : Option Nat := none

/-- remove_background_url of main.py (lines 73-122).  There is no session
check and no http check: any image_data not starting with data:image/ is
fetched; raise_for_status raises for status codes from 400 to 599.  The 400
response for missing image_data carries only an error key. -/
def mainRemoveBackgroundUrl (body : Option (Option (List Char)))
    (httpGet : List Char → Option (Nat × List Nat))
    (rembgRemove : List Nat → Option (List Nat)) : HandlerOut :=
  match body with
  | none => ⟨⟨400, none, some (.lit "No image_data provided"), none, none⟩, false⟩
  | some none => ⟨⟨400, none, some (.lit "No image_data provided"), none, none⟩, false⟩
  | some (some s) =>
    if startsWithL dataImageMarker s then
      match splitFirstComma s with
      | none => ⟨⟨500, some false, some (.exc .unpackNoComma), none, none⟩, false⟩
      | some (_hdr, enc) =>
        match b64decode enc with
        | none => ⟨⟨500, some false, some (.exc .badBase64), none, none⟩, false⟩
        | some input => runRembgFlask rembgRemove input
    else
      match httpGet s with
      | none => ⟨⟨500, some false, some (.exc .httpGetRaised), none, none⟩, false⟩
      | some (st, content) =>
        if 400 ≤ st ∧ st < 600 then
          ⟨⟨500, some false, some (.exc .raiseForStatus), none, none⟩, false⟩
        else runRembgFlask rembgRemove content

/-- The three HuggingFace endpoints tried in order by the Vercel url handler
(remove-background-url.py lines 59-63). -/
def apiUrls : List String :=
  ["https://api-inference.huggingface.co/models/briaai/RMBG-1.4",
   "https://api-inference.huggingface.co/models/ZhengPeng7/BiRefNet_T4P",
   "https://api-inference.huggingface.co/models/Xenova/modnet"]

/-- Backend list of the Vercel url handler: the three endpoints, each
invoked through the shared requests.post environment. -/
def vercelBackends (post : String → List Nat → Option (Nat × List Nat)) : List Backend :=
  apiUrls.map fun u => ⟨u, post u⟩

/-- Timeout argument of the requests.post calls in the fallback loop
(remove-background-url.py line 68): 30 seconds. -/
def vercelPostTimeout : Option Nat := some 30

/-- Tail of the Vercel url handler once input bytes are in hand: run the
fallback loop over the three endpoints; the HTTP status line was already
sent as 200 before the body.  backendCalled records whether the loop made
any requests.post call. -/
def vercelDispatch (post : String → List Nat → Option (Nat × List Nat))
    (input : List Nat) : HandlerOut :=
  let r :=
    match dispatchLoop (vercelBackends post) input with
    | some out =>
      ⟨200, some true, none, some (pngDataUrlHead ++ b64encode out),
        some "Background removed successfully"⟩
    | none => ⟨200, some false, some (.lit allFailedMsg), none, none⟩
  ⟨r, !(dispatchTrace (vercelBackends post) input).2.isEmpty⟩

/-- do_POST of remove-background-url.py (lines 17-94).  body is none when
json.loads raises, some s when image_data is read with default empty string;
urlopen models urllib.request.urlopen, which raises on error responses, so
it returns only a body or none.  The HTTP status line is always 200, sent
before the request is examined. -/
def vercelDoPost (body : Option (List Char))
    (urlopen : List Char → Option (List Nat))
    (post : String → List Nat → Option (Nat × List Nat)) : HandlerOut :=
  match body with
  | none => ⟨⟨200, some false, some (.exc .jsonRaised), none, none⟩, false⟩
  | some s =>
    if s = [] then ⟨⟨200, some false, some (.exc .noImageData), none, none⟩, false⟩
    else if startsWithL dataImageMarker s then
      match splitFirstComma s with
      | none => ⟨⟨200, some false, some (.exc .unpackNoComma), none, none⟩, false⟩
      | some (_hdr, enc) =>
        match b64decode enc with
        | none => ⟨⟨200, some false, some (.exc .badBase64), none, none⟩, false⟩
        | some input => vercelDispatch post input
    else
      match urlopen s with
      | none => ⟨⟨200, some false, some (.exc .httpGetRaised), none, none⟩, false⟩
      | some content => vercelDispatch post content

/-- The byte string filename= searched in every part
(remove-background.py line 111). -/
def filenameMarker : List Nat := strBytes "filename="

/-- The byte string Content-Type: image/ searched in every part
(remove-background.py line 111). -/
def ctImageMarker : List Nat := strBytes "Content-Type: image/"

/-- The two-byte CRLF sequence. -/
def crlfB : List Nat := [13, 10]

/-- The four-byte CRLF CRLF sequence separating part headers from the body. -/
def crlfcrlfB : List Nat := [13, 10, 13, 10]

/-- The test of remove-background.py line 111: the part contains both the
filename= marker and the Content-Type: image/ marker anywhere in its bytes,
header or body alike. -/
def partIsImageFile (part : List Nat) : Bool :=
  containsSubL filenameMarker part && containsSubL ctImageMarker part

/-- Lines 113-119 of remove-background.py: find the first CRLF CRLF, take
everything after it and strip one trailing CRLF if present; none models
header_end being -1, in which case the loop moves on. -/
def extractBody (part : List Nat) : Option (List Nat) :=
  match findSubL crlfcrlfB part with
  | none => none
  | some i =>
    let fd := part.drop (i + 4)
    some (if endsWithL crlfB fd then fd.take (fd.length - 2) else fd)

/-- The part loop of parse_multipart (lines 110-121): return the processed
body of the first part passing the marker test and having a header
separator; parts passing the test without a separator are skipped. -/
def firstImagePart : List (List Nat) → Option (List Nat)
  | [] => none
  | part :: rest =>
    if partIsImageFile part then
      match extractBody part with
      | some fd => some fd
      | none => firstImagePart rest
    else firstImagePart rest

/-- Lines 104-105 of parse_multipart: strip one pair of surrounding double
quotes from the boundary. -/
def stripQuotes (b : List Char) : List Char :=
  if startsWithL ['"'] b && endsWithL ['"'] b then (b.drop 1).dropLast else b

/-- Line 103 of parse_multipart: the segment after the first boundary=
occurrence of the content type; none models the IndexError when the marker
is absent. -/
def extractBoundary (ct : List Char) : Option (List Char) :=
  match splitOnSepL "boundary=".toList ct with
  | _ :: b :: _ => some (stripQuotes b)
  | _ => none

/-- parse_multipart of remove-background.py (lines 99-124): extract the
boundary from the content type, split the payload on the dash dash boundary
byte string, and scan the parts; the NoImagePart error labels the raise of
line 121, MultipartParseFailed the wrapped boundary extraction failure. -/
def parseMultipart (data : List Nat) (ct : List Char) : Except DecodeErr (List Nat) :=
  match extractBoundary ct with
  | none => .error .MultipartParseFailed
  | some boundary =>
    match firstImagePart (splitOnSepL (('-' :: '-' :: boundary).map Char.toNat) data) with
    | some fd => .ok fd
    | none => .error .NoImagePart

/-- Declared content type of a part in the sense of the specification
wording: the value of the Content-Type header line within the header section
of the part.  This definition follows the words of the specification, not
the source, and exists to compare the specified selection rule with the
substring test the source actually performs. -/
def specDeclaredContentType (part : List Nat) : Option (List Nat) :=
  match findSubL crlfcrlfB part with
  | none => none
  | some i =>
    let hdrs := part.take i
    match findSubL (strBytes "Content-Type: ") hdrs with
    | none => none
    | some j =>
      let after := hdrs.drop (j + (strBytes "Content-Type: ").length)
      some (after.take ((findSubL crlfB after).getD after.length))

/-- Content type header of the concrete multipart requests below. -/
def mpContentType : List Char := "multipart/form-data; boundary=XBOUND".toList

/-- First part of the plain two-part payload: a form field without filename
and with a text content type. -/
def mpPart1 : List Nat :=
  strBytes "\r\nContent-Disposition: form-data; name=\"meta\"\r\nContent-Type: text/plain\r\n\r\njust text\r\n"

/-- Second part of the plain two-part payload: a file part with content
type image/png and body PNGDATA123. -/
def mpPart2 : List Nat :=
  strBytes "\r\nContent-Disposition: form-data; name=\"file\"; filename=\"a.png\"\r\nContent-Type: image/png\r\n\r\nPNGDATA123\r\n"

/-- The plain two-part multipart payload in which only the second part has
an image content type. -/
def mpPayload : List Nat :=
  strBytes "--XBOUND" ++ mpPart1 ++ strBytes "--XBOUND" ++ mpPart2 ++ strBytes "--XBOUND--\r\n"

/-- First part of the adversarial payload: a text file whose body mentions
the text Content-Type: image/png. -/
def advPart1 : List Nat :=
  strBytes "\r\nContent-Disposition: form-data; name=\"t\"; filename=\"t.txt\"\r\nContent-Type: text/plain\r\n\r\nnote: Content-Type: image/png is an example\r\n"

/-- Second part of the adversarial payload: the actual image file part with
declared content type image/png and body REALIMG. -/
def advPart2 : List Nat :=
  strBytes "\r\nContent-Disposition: form-data; name=\"f\"; filename=\"b.png\"\r\nContent-Type: image/png\r\n\r\nREALIMG\r\n"

/-- The adversarial two-part multipart payload: only the second part
declares an image content type, but the first part body contains the marker
text. -/
def advPayload : List Nat :=
  strBytes "--XBOUND" ++ advPart1 ++ strBytes "--XBOUND" ++ advPart2 ++ strBytes "--XBOUND--\r\n"

/-- The base64 alphabet has 64 characters. -/
theorem b64AlphaChars_length : b64AlphaChars.length = 64 := by decide

/-- Scanning the alphabet recovers the index of each of the 64 characters. -/
theorem b64Index_b64Char_fin : ∀ m : Fin 64, b64Index (b64Char m.val) = some m.val := by
  decide

/-- Scanning the alphabet recovers any index below 64. -/
theorem b64Index_b64Char (n : Nat) (h : n < 64) : b64Index (b64Char n) = some n :=
  b64Index_b64Char_fin ⟨n, h⟩

/-- Out-of-range values are rendered as the default character. -/
theorem b64Char_of_ge (n : Nat) (h : 64 ≤ n) : b64Char n = 'A' := by
  unfold b64Char
  exact List.getD_eq_default _ _ (by rw [b64AlphaChars_length]; omega)

/-- No 6-bit value is rendered as the padding character. -/
theorem b64Char_ne_pad (n : Nat) : b64Char n ≠ '=' := by
  by_cases h : n < 64
  · have e := b64Index_b64Char n h
    intro hc
    rw [hc] at e
    have e0 : b64Index ('=' : Char) = none := by decide
    rw [e0] at e
    exact Option.noConfusion e
  · rw [b64Char_of_ge n (by omega)]
    decide

/-- Encoded characters survive the decoding filter. -/
theorem b64Keep_b64Char (n : Nat) : b64Keep (b64Char n) = true := by
  by_cases h : n < 64
  · simp [b64Keep, b64Index_b64Char n h]
  · rw [b64Char_of_ge n (by omega)]
    decide

/-- The padding character survives the decoding filter. -/
theorem b64Keep_pad : b64Keep '=' = true := by decide

/-- The decoding filter is the identity on encoder output. -/
theorem b64encode_filter (b : List Nat) : (b64encode b).filter b64Keep = b64encode b := by
  induction b using b64encode.induct with
  | case1 => rfl
  | case2 a => simp [b64encode, List.filter_cons, b64Keep_b64Char, b64Keep_pad]
  | case3 a b => simp [b64encode, List.filter_cons, b64Keep_b64Char, b64Keep_pad]
  | case4 a b c rest ih => simp [b64encode, List.filter_cons, b64Keep_b64Char, ih]

/-- Decoding a final quad with two padding characters. -/
theorem b64decodeQuads_pad2 (n1 n2 : Nat) (h1 : n1 < 64) (h2 : n2 < 64) :
    b64decodeQuads [b64Char n1, b64Char n2, '=', '='] = some [n1 * 4 + n2 / 16] := by
  simp [b64decodeQuads, b64Index_b64Char n1 h1, b64Index_b64Char n2 h2]

/-- Decoding a final quad with one padding character. -/
theorem b64decodeQuads_pad1 (n1 n2 n3 : Nat) (h1 : n1 < 64) (h2 : n2 < 64) (h3 : n3 < 64) :
    b64decodeQuads [b64Char n1, b64Char n2, b64Char n3, '='] =
      some [n1 * 4 + n2 / 16, n2 % 16 * 16 + n3 / 4] := by
  simp [b64decodeQuads, b64Index_b64Char n1 h1, b64Index_b64Char n2 h2,
    b64Index_b64Char n3 h3, b64Char_ne_pad n3]

/-- Decoding a quad of alphabet characters followed by anything. -/
theorem b64decodeQuads_quad (n1 n2 n3 n4 : Nat) (rest : List Char)
    (h1 : n1 < 64) (h2 : n2 < 64) (h3 : n3 < 64) (h4 : n4 < 64) :
    b64decodeQuads (b64Char n1 :: b64Char n2 :: b64Char n3 :: b64Char n4 :: rest) =
      (b64decodeQuads rest).map fun tl =>
        (n1 * 4 + n2 / 16) :: (n2 % 16 * 16 + n3 / 4) :: (n3 % 4 * 64 + n4) :: tl := by
  cases rest with
  | nil =>
    simp [b64decodeQuads, b64Index_b64Char n1 h1, b64Index_b64Char n2 h2,
      b64Index_b64Char n3 h3, b64Index_b64Char n4 h4, b64Char_ne_pad n4]
  | cons r rs =>
    simp [b64decodeQuads, b64Index_b64Char n1 h1, b64Index_b64Char n2 h2,
      b64Index_b64Char n3 h3, b64Index_b64Char n4 h4]

/-- Quad-wise decoding inverts the encoder on byte lists. -/
theorem b64decodeQuads_b64encode (b : List Nat) (h : ∀ x ∈ b, x < 256) :
    b64decodeQuads (b64encode b) = some b := by
  induction b using b64encode.induct with
  | case1 => rfl
  | case2 a =>
    have ha : a < 256 := h a (by simp)
    rw [b64encode, b64decodeQuads_pad2 _ _ (by omega) (by omega)]
    have : a / 4 * 4 + a % 4 * 16 / 16 = a := by omega
    rw [this]
  | case3 a b =>
    have ha : a < 256 := h a (by simp)
    have hb : b < 256 := h b (by simp)
    rw [b64encode, b64decodeQuads_pad1 _ _ _ (by omega) (by omega) (by omega)]
    have e1 : a / 4 * 4 + (a % 4 * 16 + b / 16) / 16 = a := by omega
    have e2 : (a % 4 * 16 + b / 16) % 16 * 16 + b % 16 * 4 / 4 = b := by omega
    rw [e1, e2]
  | case4 a b c rest ih =>
    have ha : a < 256 := h a (by simp)
    have hb : b < 256 := h b (by simp)
    have hc : c < 256 := h c (by simp)
    have hrest : ∀ x ∈ rest, x < 256 := fun x hx => h x (by simp [hx])
    rw [b64encode, b64decodeQuads_quad _ _ _ _ _ (by omega) (by omega) (by omega) (by omega),
      ih hrest]
    have e1 : a / 4 * 4 + (a % 4 * 16 + b / 16) / 16 = a := by omega
    have e2 : (a % 4 * 16 + b / 16) % 16 * 16 + (b % 16 * 4 + c / 64) / 4 = b := by omega
    have e3 : (b % 16 * 4 + c / 64) % 4 * 64 + c % 64 = c := by omega
    rw [e1, e2, e3]
    rfl

/-- Python-style base64 decoding inverts the encoder on byte lists. -/
theorem b64decode_b64encode (b : List Nat) (h : ∀ x ∈ b, x < 256) :
    b64decode (b64encode b) = some b := by
  unfold b64decode
  rw [b64encode_filter, b64decodeQuads_b64encode b h]

/-- A comma-free string has no split point. -/
theorem splitFirstComma_none (s : List Char) (h : ∀ c ∈ s, c ≠ ',') :
    splitFirstComma s = none := by
  induction s with
  | nil => rfl
  | cons c rest ih =>
    simp [splitFirstComma, h c (by simp), ih fun x hx => h x (by simp [hx])]

/-- Splitting a string whose head segment is comma-free cuts at the first
comma. -/
theorem splitFirstComma_append (pre post : List Char) (h : ∀ c ∈ pre, c ≠ ',') :
    splitFirstComma (pre ++ ',' :: post) = some (pre, post) := by
  induction pre with
  | nil => simp [splitFirstComma]
  | cons c rest ih =>
    simp [splitFirstComma, h c (by simp), ih fun x hx => h x (by simp [hx])]

/-- C4: encoding any byte sequence as a base64 data URL (a comma-free MIME
header, a comma, then the standard base64 encoding of the bytes) and then
normalizing recovers exactly the original bytes. -/
theorem c4_data_url_roundtrip (hdr : List Char) (b : List Nat)
    (hhdr : ∀ c ∈ hdr, c ≠ ',') (hb : ∀ x ∈ b, x < 256) :
    normalizeDataUrl (hdr ++ ',' :: b64encode b) = .ok b := by
  simp [normalizeDataUrl, splitFirstComma_append hdr (b64encode b) hhdr,
    b64decode_b64encode b hb]

/-- Witness for C4 at the header data:image/png;base64 and bytes 0, 77, 255. -/
theorem c4_data_url_roundtrip_witness :
    (∀ c ∈ "data:image/png;base64".toList, c ≠ ',') ∧
      (∀ x ∈ [0, 77, 255], x < 256) ∧
      normalizeDataUrl ("data:image/png;base64".toList ++ ',' :: b64encode [0, 77, 255]) =
        .ok [0, 77, 255] :=
  ⟨by decide, by decide, c4_data_url_roundtrip _ _ (by decide) (by decide)⟩

/-- C5: a data URL without a comma fails with MalformedDataUrl; with a comma
the string is split at the first comma and the payload is base64-decoded,
failing with InvalidBase64 exactly when the decoder fails. -/
theorem c5_data_url_errors :
    (∀ s : List Char, (∀ c ∈ s, c ≠ ',') →
        normalizeDataUrl s = .error .MalformedDataUrl)
    ∧ (∀ hdr enc : List Char, (∀ c ∈ hdr, c ≠ ',') → b64decode enc = none →
        normalizeDataUrl (hdr ++ ',' :: enc) = .error .InvalidBase64)
    ∧ (∀ (hdr enc : List Char) (bs : List Nat),
        (∀ c ∈ hdr, c ≠ ',') → b64decode enc = some bs →
        normalizeDataUrl (hdr ++ ',' :: enc) = .ok bs) := by
  refine ⟨fun s hs => ?_, fun hdr enc hh he => ?_, fun hdr enc bs hh he => ?_⟩
  · simp [normalizeDataUrl, splitFirstComma_none s hs]
  · simp [normalizeDataUrl, splitFirstComma_append hdr enc hh, he]
  · simp [normalizeDataUrl, splitFirstComma_append hdr enc hh, he]

/-- Witness for C5 on a comma-free input, a payload of bad base64 and a
payload of good base64. -/
theorem c5_data_url_errors_witness :
    ((∀ c ∈ "data:image/png;base64TWFu".toList, c ≠ ',') ∧
      normalizeDataUrl "data:image/png;base64TWFu".toList = .error .MalformedDataUrl)
    ∧ ((∀ c ∈ "data:image/png;base64".toList, c ≠ ',') ∧ b64decode "a".toList = none ∧
      normalizeDataUrl ("data:image/png;base64".toList ++ ',' :: "a".toList) =
        .error .InvalidBase64)
    ∧ (b64decode "TWFu".toList = some [77, 97, 110] ∧
      normalizeDataUrl ("hdr".toList ++ ',' :: "TWFu".toList) = .ok [77, 97, 110]) :=
  ⟨⟨by decide, c5_data_url_errors.1 _ (by decide)⟩,
   ⟨by decide, by decide, c5_data_url_errors.2.1 _ _ (by decide) (by decide)⟩,
   ⟨by decide, c5_data_url_errors.2.2 _ _ _ (by decide) (by decide)⟩⟩

/-- C1 counterexample: with the list A(fails), B(succeeds) the dispatcher
invokes A then B, yet its result is exactly the result of running B alone,
so no failure of A is recorded anywhere in the result. -/
theorem c1_counterexample :
    dispatch [backendA, backendB] [5] = .Success [9, 9]
    ∧ dispatch [backendB] [5] = .Success [9, 9]
    ∧ dispatch [backendA, backendB] [5] = dispatch [backendB] [5]
    ∧ (dispatchTrace [backendA, backendB] [5]).2 =
        ["https://api-inference.huggingface.co/models/A",
         "https://api-inference.huggingface.co/models/B"] := by
  decide

/-- C1 amended: the dispatcher tries backends sequentially in configured
order, returns Success with the first succeeding backend body immediately
and invokes nothing after the first success; earlier failures are swallowed
without being recorded in the result. -/
theorem c1_first_success (pre : List Backend) (bk : Backend) (post : List Backend)
    (input out : List Nat)
    (hpre : ∀ a ∈ pre, backendFails a input = true)
    (hbk : bk.invoke input = some (200, out)) :
    dispatchTrace (pre ++ bk :: post) input =
      (some out, pre.map Backend.name ++ [bk.name])
    ∧ dispatch (pre ++ bk :: post) input = .Success out := by
  have htr : dispatchTrace (pre ++ bk :: post) input =
      (some out, pre.map Backend.name ++ [bk.name]) := by
    induction pre with
    | nil => simp [dispatchTrace, hbk]
    | cons a rest ih =>
      have ha := hpre a (by simp)
      have hrest : ∀ x ∈ rest, backendFails x input = true :=
        fun x hx => hpre x (by simp [hx])
      unfold backendFails at ha
      simp only [List.cons_append, dispatchTrace]
      cases hinv : a.invoke input with
      | none => simp [ih hrest]
      | some p =>
        obtain ⟨st, content⟩ := p
        rw [hinv] at ha
        simp only [decide_eq_true_eq] at ha
        simp [ha, ih hrest]
  refine ⟨htr, ?_⟩
  unfold dispatch dispatchLoop
  rw [htr]

/-- Witness for C1 amended at the list A(fails), B(succeeds) on input 5. -/
theorem c1_first_success_witness :
    (∀ a ∈ [backendA], backendFails a [5] = true)
    ∧ backendB.invoke [5] = some (200, [9, 9])
    ∧ dispatchTrace ([backendA] ++ backendB :: []) [5] =
        (some [9, 9], [backendA].map Backend.name ++ [backendB.name])
    ∧ dispatch ([backendA] ++ backendB :: []) [5] = .Success [9, 9] :=
  ⟨by decide, by decide,
    (c1_first_success [backendA] backendB [] [5] [9, 9] (by decide) (by decide)).1,
    (c1_first_success [backendA] backendB [] [5] [9, 9] (by decide) (by decide)).2⟩

/-- C2 counterexample: with every backend failing, the dispatch result for
the one-element list A equals the result for the two-element list A, B2 -
the same bare aggregate failure - so the result carries no attempted-backend
list whose length equals the number of configured backends, and no
per-backend reasons. -/
theorem c2_counterexample :
    dispatch [backendA] [5] = .Failure allFailedMsg
    ∧ dispatch [backendA, backendB2] [5] = .Failure allFailedMsg
    ∧ dispatch [backendA] [5] = dispatch [backendA, backendB2] [5] := by
  decide

/-- C2 amended: when every backend fails, every backend is invoked once in
configured order and the dispatcher returns the single aggregate Failure
with the fixed message; individual failures are not surfaced and the result
records neither the attempted backends nor their reasons. -/
theorem c2_all_fail (bks : List Backend) (input : List Nat)
    (h : ∀ a ∈ bks, backendFails a input = true) :
    dispatchTrace bks input = (none, bks.map Backend.name)
    ∧ dispatch bks input = .Failure allFailedMsg := by
  have htr : dispatchTrace bks input = (none, bks.map Backend.name) := by
    induction bks with
    | nil => rfl
    | cons a rest ih =>
      have ha := h a (by simp)
      have hrest : ∀ x ∈ rest, backendFails x input = true :=
        fun x hx => h x (by simp [hx])
      unfold backendFails at ha
      simp only [dispatchTrace]
      cases hinv : a.invoke input with
      | none => simp [ih hrest]
      | some p =>
        obtain ⟨st, content⟩ := p
        rw [hinv] at ha
        simp only [decide_eq_true_eq] at ha
        simp [ha, ih hrest]
  refine ⟨htr, ?_⟩
  unfold dispatch dispatchLoop
  rw [htr]

/-- Witness for C2 amended at the all-failing list A, B2 on input 5. -/
theorem c2_all_fail_witness :
    (∀ a ∈ [backendA, backendB2], backendFails a [5] = true)
    ∧ dispatchTrace [backendA, backendB2] [5] =
        (none, [backendA, backendB2].map Backend.name)
    ∧ dispatch [backendA, backendB2] [5] = .Failure allFailedMsg :=
  ⟨by decide,
    (c2_all_fail [backendA, backendB2] [5] (by decide)).1,
    (c2_all_fail [backendA, backendB2] [5] (by decide)).2⟩

/-- C3 counterexample: on the empty backend list the dispatcher does not
produce a ConfigurationError; it falls through the loop and raises the same
aggregate all-backends-failed exception. -/
theorem c3_counterexample :
    dispatch [] [7] = .Failure allFailedMsg
    ∧ dispatch [] [7] ≠ .ConfigurationError := by
  decide

/-- C3 amended: on the empty backend list the dispatcher fails immediately,
invoking no backend and making no network call, but via the generic
aggregate Failure rather than a distinct ConfigurationError. -/
theorem c3_empty_list (input : List Nat) :
    dispatch [] input = .Failure allFailedMsg
    ∧ dispatchTrace [] input = (none, []) := by
  exact ⟨rfl, rfl⟩

/-- A successful rembg tail response carries the base64 data URL of the
rembg output. -/
theorem runRembgFlask_success (g : List Nat → Option (List Nat)) (input : List Nat)
    (h : (runRembgFlask g input).resp.success = some true) :
    ∃ out, g input = some out ∧
      (runRembgFlask g input).resp.image = some (pngDataUrlHead ++ b64encode out) := by
  cases hg : g input with
  | none => simp [runRembgFlask, hg] at h
  | some out => exact ⟨out, rfl, by simp [runRembgFlask, hg]⟩

/-- Every run of the app.py handler either reaches the rembg tail on some
input bytes or does not report success. -/
theorem app_cases (sess : Option Unit) (body : Option (Option (List Char)))
    (f : List Char → Option (Nat × List Nat)) (g : List Nat → Option (List Nat)) :
    (∃ inp, appRemoveBackgroundUrl sess body f g = runRembgFlask g inp)
    ∨ (appRemoveBackgroundUrl sess body f g).resp.success ≠ some true := by
  cases sess with
  | none => exact Or.inr (by simp [appRemoveBackgroundUrl])
  | some u =>
    cases body with
    | none => exact Or.inr (by simp [appRemoveBackgroundUrl])
    | some ob =>
      cases ob with
      | none => exact Or.inr (by simp [appRemoveBackgroundUrl])
      | some s =>
        by_cases hd : startsWithL dataImageMarker s = true
        · cases hsp : splitFirstComma s with
          | none => exact Or.inr (by simp [appRemoveBackgroundUrl, hd, hsp])
          | some pr =>
            obtain ⟨hdr, enc⟩ := pr
            cases hb : b64decode enc with
            | none => exact Or.inr (by simp [appRemoveBackgroundUrl, hd, hsp, hb])
            | some inp =>
              exact Or.inl ⟨inp, by simp [appRemoveBackgroundUrl, hd, hsp, hb]⟩
        · by_cases hh : startsWithL httpMarker s = true
          · cases hf : f s with
            | none => exact Or.inr (by simp [appRemoveBackgroundUrl, hd, hh, hf])
            | some pr =>
              obtain ⟨st, content⟩ := pr
              exact Or.inl ⟨content, by simp [appRemoveBackgroundUrl, hd, hh, hf]⟩
          · exact Or.inr (by simp [appRemoveBackgroundUrl, hd, hh])

/-- Every run of the main.py handler either reaches the rembg tail on some
input bytes or does not report success. -/
theorem main_cases (body : Option (Option (List Char)))
    (f : List Char → Option (Nat × List Nat)) (g : List Nat → Option (List Nat)) :
    (∃ inp, mainRemoveBackgroundUrl body f g = runRembgFlask g inp)
    ∨ (mainRemoveBackgroundUrl body f g).resp.success ≠ some true := by
  cases body with
  | none => exact Or.inr (by simp [mainRemoveBackgroundUrl])
  | some ob =>
    cases ob with
    | none => exact Or.inr (by simp [mainRemoveBackgroundUrl])
    | some s =>
      by_cases hd : startsWithL dataImageMarker s = true
      · cases hsp : splitFirstComma s with
        | none => exact Or.inr (by simp [mainRemoveBackgroundUrl, hd, hsp])
        | some pr =>
          obtain ⟨hdr, enc⟩ := pr
          cases hb : b64decode enc with
          | none => exact Or.inr (by simp [mainRemoveBackgroundUrl, hd, hsp, hb])
          | some inp =>
            exact Or.inl ⟨inp, by simp [mainRemoveBackgroundUrl, hd, hsp, hb]⟩
      · cases hf : f s with
        | none => exact Or.inr (by simp [mainRemoveBackgroundUrl, hd, hf])
        | some pr =>
          obtain ⟨st, content⟩ := pr
          by_cases hs : 400 ≤ st ∧ st < 600
          · exact Or.inr (by simp [mainRemoveBackgroundUrl, hd, hf, hs])
          · exact Or.inl ⟨content, by simp [mainRemoveBackgroundUrl, hd, hf, hs]⟩

/-- Every run of the Vercel url handler either reaches the fallback loop on
some input bytes or does not report success. -/
theorem vercel_cases (body : Option (List Char))
    (u : List Char → Option (List Nat))
    (p : String → List Nat → Option (Nat × List Nat)) :
    (∃ inp, vercelDoPost body u p = vercelDispatch p inp)
    ∨ (vercelDoPost body u p).resp.success ≠ some true := by
  cases body with
  | none => exact Or.inr (by simp [vercelDoPost])
  | some s =>
    by_cases he : s = []
    · exact Or.inr (by simp [vercelDoPost, he])
    · by_cases hd : startsWithL dataImageMarker s = true
      · cases hsp : splitFirstComma s with
        | none => exact Or.inr (by simp [vercelDoPost, he, hd, hsp])
        | some pr =>
          obtain ⟨hdr, enc⟩ := pr
          cases hb : b64decode enc with
          | none => exact Or.inr (by simp [vercelDoPost, he, hd, hsp, hb])
          | some inp =>
            exact Or.inl ⟨inp, by simp [vercelDoPost, he, hd, hsp, hb]⟩
      · cases hu : u s with
        | none => exact Or.inr (by simp [vercelDoPost, he, hd, hu])
        | some content =>
          exact Or.inl ⟨content, by simp [vercelDoPost, he, hd, hu]⟩

/-- A successful fallback-loop response carries the base64 data URL of the
first succeeding backend body. -/
theorem vercelDispatch_success (p : String → List Nat → Option (Nat × List Nat))
    (inp : List Nat) (h : (vercelDispatch p inp).resp.success = some true) :
    ∃ out, dispatchLoop (vercelBackends p) inp = some out ∧
      (vercelDispatch p inp).resp.image = some (pngDataUrlHead ++ b64encode out) := by
  cases hd : dispatchLoop (vercelBackends p) inp with
  | none => simp [vercelDispatch, hd] at h
  | some out => exact ⟨out, rfl, by simp [vercelDispatch, hd]⟩

/-- C9: whenever a request succeeds, the image field of the JSON response is
the fixed data:image/png;base64 comma head followed by the standard base64
encoding of the backend output bytes, with success true, in app.py, main.py
and the Vercel url handler alike, whatever the input form was. -/
theorem c9_success_shape :
    (∀ sess body f g, (appRemoveBackgroundUrl sess body f g).resp.success = some true →
      ∃ inp out, g inp = some out ∧
        (appRemoveBackgroundUrl sess body f g).resp.image =
          some (pngDataUrlHead ++ b64encode out))
    ∧ (∀ body f g, (mainRemoveBackgroundUrl body f g).resp.success = some true →
      ∃ inp out, g inp = some out ∧
        (mainRemoveBackgroundUrl body f g).resp.image =
          some (pngDataUrlHead ++ b64encode out))
    ∧ (∀ body u p, (vercelDoPost body u p).resp.success = some true →
      ∃ inp out, dispatchLoop (vercelBackends p) inp = some out ∧
        (vercelDoPost body u p).resp.image =
          some (pngDataUrlHead ++ b64encode out)) := by
  refine ⟨fun sess body f g h => ?_, fun body f g h => ?_, fun body u p h => ?_⟩
  · rcases app_cases sess body f g with ⟨inp, he⟩ | hne
    · rw [he] at h ⊢
      obtain ⟨out, hg, hi⟩ := runRembgFlask_success g inp h
      exact ⟨inp, out, hg, hi⟩
    · exact absurd h hne
  · rcases main_cases body f g with ⟨inp, he⟩ | hne
    · rw [he] at h ⊢
      obtain ⟨out, hg, hi⟩ := runRembgFlask_success g inp h
      exact ⟨inp, out, hg, hi⟩
    · exact absurd h hne
  · rcases vercel_cases body u p with ⟨inp, he⟩ | hne
    · rw [he] at h ⊢
      obtain ⟨out, hd, hi⟩ := vercelDispatch_success p inp h
      exact ⟨inp, out, hd, hi⟩
    · exact absurd h hne

/-- Witness for C9 at a successful app.py run fetching a remote URL. -/
theorem c9_success_shape_witness :
    (appRemoveBackgroundUrl (some ()) (some (some "http://img.example/a.png".toList))
        (fun _ => some (200, [1, 2])) (fun _ => some [3])).resp.success = some true
    ∧ ∃ inp out, (fun _ => some [3] : List Nat → Option (List Nat)) inp = some out ∧
        (appRemoveBackgroundUrl (some ()) (some (some "http://img.example/a.png".toList))
          (fun _ => some (200, [1, 2])) (fun _ => some [3])).resp.image =
            some (pngDataUrlHead ++ b64encode out) :=
  ⟨by decide, c9_success_shape.1 _ _ _ _ (by decide)⟩

/-- C10: in app.py with an initialized session, an image_data string that
starts with neither data:image/ nor http yields the 400 response with
success false and the literal error Invalid image_data format, and the
backend is never invoked. -/
theorem c10_invalid_format (s : List Char)
    (f : List Char → Option (Nat × List Nat)) (g : List Nat → Option (List Nat))
    (h1 : startsWithL dataImageMarker s = false)
    (h2 : startsWithL httpMarker s = false) :
    appRemoveBackgroundUrl (some ()) (some (some s)) f g =
      ⟨⟨400, some false, some (.lit "Invalid image_data format"), none, none⟩, false⟩ := by
  simp [appRemoveBackgroundUrl, h1, h2]

/-- Witness for C10 at the string hello. -/
theorem c10_invalid_format_witness :
    startsWithL dataImageMarker "hello".toList = false
    ∧ startsWithL httpMarker "hello".toList = false
    ∧ appRemoveBackgroundUrl (some ()) (some (some "hello".toList))
        (fun _ => none) (fun _ => none) =
      ⟨⟨400, some false, some (.lit "Invalid image_data format"), none, none⟩, false⟩ :=
  ⟨by decide, by decide, c10_invalid_format _ _ _ (by decide) (by decide)⟩

/-- C7 counterexample: app.py fetches a remote URL whose server answers 404
with an error body, and the request nevertheless succeeds, the error body
being passed to the backend as image bytes; moreover the requests.get call
sets no timeout at all, let alone a 30-second one. -/
theorem c7_counterexample :
    (appRemoveBackgroundUrl (some ()) (some (some "http://img.example/a.png".toList))
        (fun _ => some (404, [60, 104])) (fun bs => some bs)).resp.success = some true
    ∧ (appRemoveBackgroundUrl (some ()) (some (some "http://img.example/a.png".toList))
        (fun _ => some (404, [60, 104])) (fun bs => some bs)).resp.image =
          some (pngDataUrlHead ++ b64encode [60, 104])
    ∧ appGetTimeout = none ∧ appGetTimeout ≠ some 30 := by
  refine ⟨by decide, by decide, rfl, by decide⟩

/-- C7 amended: remote URLs are fetched by plain HTTP GET with no timeout
argument anywhere; app.py uses the response body whatever the status code,
main.py raises for status codes 400 to 599 and otherwise uses the body, and
the Vercel urlopen path turns a raised fetch into an error response. -/
theorem c7_fetch_behaviour :
    (∀ (s : List Char) f g (st : Nat) (content : List Nat),
      startsWithL dataImageMarker s = false → startsWithL httpMarker s = true →
      f s = some (st, content) →
      appRemoveBackgroundUrl (some ()) (some (some s)) f g = runRembgFlask g content)
    ∧ (∀ (s : List Char) f g (st : Nat) (content : List Nat),
      startsWithL dataImageMarker s = false → f s = some (st, content) →
      400 ≤ st → st < 600 →
      mainRemoveBackgroundUrl (some (some s)) f g =
        ⟨⟨500, some false, some (.exc .raiseForStatus), none, none⟩, false⟩)
    ∧ (∀ (s : List Char) f g (st : Nat) (content : List Nat),
      startsWithL dataImageMarker s = false → f s = some (st, content) →
      ¬(400 ≤ st ∧ st < 600) →
      mainRemoveBackgroundUrl (some (some s)) f g = runRembgFlask g content)
    ∧ (∀ (s : List Char) u p, s ≠ [] → startsWithL dataImageMarker s = false →
      u s = none →
      vercelDoPost (some s) u p =
        ⟨⟨200, some false, some (.exc .httpGetRaised), none, none⟩, false⟩)
    ∧ appGetTimeout = none ∧ mainGetTimeout = none := by
  refine ⟨fun s f g st content h1 h2 hf => ?_, fun s f g st content h1 hf h4 h6 => ?_,
    fun s f g st content h1 hf hn => ?_, fun s u p hne h1 hu => ?_, rfl, rfl⟩
  · simp [appRemoveBackgroundUrl, h1, h2, hf]
  · simp [mainRemoveBackgroundUrl, h1, hf, h4, h6]
  · simp [mainRemoveBackgroundUrl, h1, hf, hn]
  · simp [vercelDoPost, hne, h1, hu]

/-- Witness for C7 amended on concrete fetch environments. -/
theorem c7_fetch_behaviour_witness :
    (startsWithL dataImageMarker "http://a.example/i".toList = false
      ∧ startsWithL httpMarker "http://a.example/i".toList = true
      ∧ (fun _ : List Char => some (404, [8])) "http://a.example/i".toList = some (404, [8])
      ∧ appRemoveBackgroundUrl (some ()) (some (some "http://a.example/i".toList))
          (fun _ => some (404, [8])) (fun _ => some [5]) =
        runRembgFlask (fun _ => some [5]) [8])
    ∧ ((404 : Nat) ≥ 400 ∧ (404 : Nat) < 600
      ∧ mainRemoveBackgroundUrl (some (some "http://a.example/i".toList))
          (fun _ => some (404, [8])) (fun _ => some [5]) =
        ⟨⟨500, some false, some (.exc .raiseForStatus), none, none⟩, false⟩)
    ∧ (¬((400 : Nat) ≤ 200 ∧ (200 : Nat) < 600)
      ∧ mainRemoveBackgroundUrl (some (some "http://a.example/i".toList))
          (fun _ => some (200, [8])) (fun _ => some [5]) =
        runRembgFlask (fun _ => some [5]) [8])
    ∧ vercelDoPost (some "http://a.example/i".toList) (fun _ => none) (fun _ _ => none) =
        ⟨⟨200, some false, some (.exc .httpGetRaised), none, none⟩, false⟩ :=
  ⟨⟨by decide, by decide, rfl,
      c7_fetch_behaviour.1 _ _ _ 404 [8] (by decide) (by decide) rfl⟩,
    ⟨by decide, by decide,
      c7_fetch_behaviour.2.1 _ _ _ 404 [8] (by decide) rfl (by decide) (by decide)⟩,
    ⟨by decide,
      c7_fetch_behaviour.2.2.1 _ _ _ 200 [8] (by decide) rfl (by decide)⟩,
    c7_fetch_behaviour.2.2.2.1 _ _ _ (by decide) (by decide) rfl⟩

/-- C8 counterexample: the missing-session configuration error in app.py is
surfaced with status 500, not a 4xx status, and in the Vercel handler a
malformed data URL (no comma) is answered on the already-sent 200 status
line; in both cases no backend is invoked. -/
theorem c8_counterexample :
    (appRemoveBackgroundUrl none (some (some "x".toList))
        (fun _ => none) (fun _ => none)).resp.status = 500
    ∧ ¬(400 ≤ (appRemoveBackgroundUrl none (some (some "x".toList))
        (fun _ => none) (fun _ => none)).resp.status
      ∧ (appRemoveBackgroundUrl none (some (some "x".toList))
        (fun _ => none) (fun _ => none)).resp.status < 500)
    ∧ (appRemoveBackgroundUrl none (some (some "x".toList))
        (fun _ => none) (fun _ => none)).backendCalled = false
    ∧ (vercelDoPost (some "data:image/png;base64".toList)
        (fun _ => none) (fun _ _ => none)).resp.status = 200
    ∧ (vercelDoPost (some "data:image/png;base64".toList)
        (fun _ => none) (fun _ _ => none)).resp.success = some false := by
  refine ⟨by decide, by decide, by decide, by decide, by decide⟩

/-- C8 amended: decode and configuration failures are surfaced immediately
and the backend is never invoked for them, but the HTTP status is 400 only
for a missing or ill-formatted image_data in app.py; the missing session
and the decode exceptions are sent as 500, and the Vercel handler answers
every failure on the already-sent 200 status line. -/
theorem c8_early_failures :
    (∀ body f g, appRemoveBackgroundUrl none body f g =
      ⟨⟨500, some false, some (.lit "rembg session not initialized"), none, none⟩, false⟩)
    ∧ (∀ f g, appRemoveBackgroundUrl (some ()) none f g =
      ⟨⟨400, some false, some (.lit "No image_data provided"), none, none⟩, false⟩)
    ∧ (∀ (s : List Char) f g, startsWithL dataImageMarker s = true →
      splitFirstComma s = none →
      appRemoveBackgroundUrl (some ()) (some (some s)) f g =
        ⟨⟨500, some false, some (.exc .unpackNoComma), none, none⟩, false⟩)
    ∧ (∀ (s hdr enc : List Char) f g, startsWithL dataImageMarker s = true →
      splitFirstComma s = some (hdr, enc) → b64decode enc = none →
      appRemoveBackgroundUrl (some ()) (some (some s)) f g =
        ⟨⟨500, some false, some (.exc .badBase64), none, none⟩, false⟩)
    ∧ (∀ (s : List Char) f g, startsWithL dataImageMarker s = false →
      startsWithL httpMarker s = false →
      appRemoveBackgroundUrl (some ()) (some (some s)) f g =
        ⟨⟨400, some false, some (.lit "Invalid image_data format"), none, none⟩, false⟩)
    ∧ (∀ u p, vercelDoPost none u p =
      ⟨⟨200, some false, some (.exc .jsonRaised), none, none⟩, false⟩)
    ∧ (∀ (s hdr enc : List Char) u p, s ≠ [] → startsWithL dataImageMarker s = true →
      splitFirstComma s = some (hdr, enc) → b64decode enc = none →
      vercelDoPost (some s) u p =
        ⟨⟨200, some false, some (.exc .badBase64), none, none⟩, false⟩) := by
  refine ⟨fun body f g => rfl, fun f g => rfl, fun s f g h1 h2 => ?_,
    fun s hdr enc f g h1 h2 h3 => ?_, fun s f g h1 h2 => ?_, fun u p => rfl,
    fun s hdr enc u p h0 h1 h2 h3 => ?_⟩
  · simp [appRemoveBackgroundUrl, h1, h2]
  · simp [appRemoveBackgroundUrl, h1, h2, h3]
  · simp [appRemoveBackgroundUrl, h1, h2]
  · simp [vercelDoPost, h0, h1, h2, h3]

/-- Witness for C8 amended on concrete early-failure requests. -/
theorem c8_early_failures_witness :
    appRemoveBackgroundUrl none (some (some "x".toList)) (fun _ => none) (fun _ => none) =
      ⟨⟨500, some false, some (.lit "rembg session not initialized"), none, none⟩, false⟩
    ∧ (startsWithL dataImageMarker "data:image/png".toList = true
      ∧ splitFirstComma "data:image/png".toList = none
      ∧ appRemoveBackgroundUrl (some ()) (some (some "data:image/png".toList))
          (fun _ => none) (fun _ => none) =
        ⟨⟨500, some false, some (.exc .unpackNoComma), none, none⟩, false⟩)
    ∧ (b64decode "a".toList = none
      ∧ appRemoveBackgroundUrl (some ()) (some (some "data:image/png;base64,a".toList))
          (fun _ => none) (fun _ => none) =
        ⟨⟨500, some false, some (.exc .badBase64), none, none⟩, false⟩)
    ∧ vercelDoPost (some "data:image/png;base64,a".toList) (fun _ => none) (fun _ _ => none) =
        ⟨⟨200, some false, some (.exc .badBase64), none, none⟩, false⟩ :=
  ⟨c8_early_failures.1 _ _ _,
    ⟨by decide, by decide, c8_early_failures.2.2.1 _ _ _ (by decide) (by decide)⟩,
    ⟨by decide, c8_early_failures.2.2.2.1 "data:image/png;base64,a".toList
      "data:image/png;base64".toList "a".toList _ _ (by decide) (by decide) (by decide)⟩,
    c8_early_failures.2.2.2.2.2.2 "data:image/png;base64,a".toList
      "data:image/png;base64".toList "a".toList _ _ (by decide) (by decide)
      (by decide) (by decide)⟩

/-- When no part passes the marker test the scan returns nothing. -/
theorem firstImagePart_none (parts : List (List Nat))
    (h : ∀ p ∈ parts, partIsImageFile p = false) : firstImagePart parts = none := by
  induction parts with
  | nil => rfl
  | cons p rest ih =>
    simp [firstImagePart, h p (by simp), ih fun x hx => h x (by simp [hx])]

/-- The scan returns the processed body of the first part passing the
marker test when that part has a header separator. -/
theorem firstImagePart_first (pre : List (List Nat)) (part : List Nat)
    (rest : List (List Nat)) (fd : List Nat)
    (hpre : ∀ p ∈ pre, partIsImageFile p = false)
    (hpart : partIsImageFile part = true) (hext : extractBody part = some fd) :
    firstImagePart (pre ++ part :: rest) = some fd := by
  induction pre with
  | nil => simp [firstImagePart, hpart, hext]
  | cons q qs ih =>
    simp [firstImagePart, hpre q (by simp), ih fun x hx => hpre x (by simp [hx])]

set_option maxRecDepth 80000 in
/-- C6 counterexample: on the adversarial payload the parser returns the
body of the first part, whose declared content type is text/plain, because
that body merely contains the marker text; the first part whose declared
content type begins with image/ is the second, with the different body
REALIMG. -/
theorem c6_counterexample :
    splitOnSepL (strBytes "--XBOUND") advPayload =
      [[], advPart1, advPart2, strBytes "--\r\n"]
    ∧ parseMultipart advPayload mpContentType =
        .ok (strBytes "note: Content-Type: image/png is an example")
    ∧ specDeclaredContentType advPart1 = some (strBytes "text/plain")
    ∧ startsWithL (strBytes "image/") (strBytes "text/plain") = false
    ∧ specDeclaredContentType advPart2 = some (strBytes "image/png")
    ∧ startsWithL (strBytes "image/") (strBytes "image/png") = true
    ∧ strBytes "note: Content-Type: image/png is an example" ≠ strBytes "REALIMG" := by
  refine ⟨by decide, by rfl, by decide, by decide, by decide, by decide, by decide⟩

set_option maxRecDepth 80000 in
/-- C6 amended: the parser extracts the header-stripped body (one trailing
CRLF removed) of the first part containing both the filename= marker and
the Content-Type: image/ marker anywhere in its bytes, fails with
NoImagePart when no part contains both, and on the plain two-part payload
whose second part alone is an image file it returns exactly that second
part body. -/
theorem c6_multipart_extraction :
    (∀ parts : List (List Nat), (∀ p ∈ parts, partIsImageFile p = false) →
      firstImagePart parts = none)
    ∧ (∀ (data : List Nat) (ct boundary : List Char),
        extractBoundary ct = some boundary →
        (∀ p ∈ splitOnSepL (('-' :: '-' :: boundary).map Char.toNat) data,
          partIsImageFile p = false) →
        parseMultipart data ct = .error .NoImagePart)
    ∧ (∀ (pre : List (List Nat)) (part : List Nat) (rest : List (List Nat)) (fd : List Nat),
        (∀ p ∈ pre, partIsImageFile p = false) → partIsImageFile part = true →
        extractBody part = some fd → firstImagePart (pre ++ part :: rest) = some fd)
    ∧ parseMultipart mpPayload mpContentType = .ok (strBytes "PNGDATA123") := by
  refine ⟨firstImagePart_none, fun data ct boundary hb hall => ?_,
    firstImagePart_first, by rfl⟩
  have hfip := firstImagePart_none _ hall
  simp only [parseMultipart, hb, hfip]

set_option maxRecDepth 80000 in
/-- Witness for C6 amended on concrete payloads. -/
theorem c6_multipart_extraction_witness :
    ((∀ p ∈ [mpPart1], partIsImageFile p = false) ∧ firstImagePart [mpPart1] = none)
    ∧ (extractBoundary mpContentType = some "XBOUND".toList
      ∧ (∀ p ∈ splitOnSepL (('-' :: '-' :: "XBOUND".toList).map Char.toNat)
            (strBytes "--XBOUND\r\nhello\r\n--XBOUND--\r\n"), partIsImageFile p = false)
      ∧ parseMultipart (strBytes "--XBOUND\r\nhello\r\n--XBOUND--\r\n") mpContentType =
          .error .NoImagePart)
    ∧ (partIsImageFile mpPart2 = true ∧ extractBody mpPart2 = some (strBytes "PNGDATA123")
      ∧ firstImagePart ([mpPart1] ++ mpPart2 :: []) = some (strBytes "PNGDATA123")) :=
  ⟨⟨by decide, c6_multipart_extraction.1 _ (by decide)⟩,
    ⟨by decide, by decide,
      c6_multipart_extraction.2.1 (strBytes "--XBOUND\r\nhello\r\n--XBOUND--\r\n")
        mpContentType "XBOUND".toList (by decide) (by decide)⟩,
    ⟨by decide, by decide,
      c6_multipart_extraction.2.2.1 [mpPart1] mpPart2 [] _ (by decide) (by decide)
        (by decide)⟩⟩

end PhotoFrame
